import Mathlib

/-!
Verification of the YouTube channel-checker backend (Express server).

The embedding models the server's request handlers as pure functions:
- the three URL regexes of `getChannelIdFromAPI` become left-to-right
  scanners over the character list of the URL;
- the external services (Google identity provider, YouTube data API) become
  oracle functions packaged in an `Env` structure;
- the PostgreSQL table `channel_details` becomes a list of `ChannelRecord`s,
  and each handler also reports the trace of storage operations and
  metadata-API calls it performed;
- JavaScript exceptions (fetch failure, property access on `undefined`)
  become an `Except JsError` result, caught at the route handler's
  `try/catch` boundary exactly where the source catches them.

The repository carries three variants of the server file.  Their route
handlers and resolver are behaviourally identical; the token-verification
middleware differs: two variants guard a missing `Authorization` header
(responding 401), the third dereferences it unguarded (a thrown
`TypeError`, hence no response).  Both middleware variants are embedded.
-/

/-- The character class `[a-zA-Z0-9_-]` used by all three URL regexes. -/
def isWordChar (c : Char) : Bool :=
  c.isAlpha || c.isDigit || c == '_' || c == '-'

/-- `litMatches lit s` holds when `lit` is an initial segment of `s`. -/
def litMatches : List Char → List Char → Bool
  | [], _ => true
  | _ :: _, [] => false
  | c :: cs, d :: ds => c == d && litMatches cs ds

/-- Leftmost match of the regex `<lit>([a-zA-Z0-9_-]+)`: scan the string
left to right; at the first position where the literal is followed by a
non-empty run of word characters, capture that maximal run.  A position
where the literal matches but no word character follows is skipped, as the
regex engine advances the start position by one. -/
def scanCapture (lit : List Char) : List Char → Option (List Char)
  | [] => none
  | s@(_ :: rest) =>
    if litMatches lit s then
      let run := (s.drop lit.length).takeWhile isWordChar
      if run.isEmpty then scanCapture lit rest else some run
    else scanCapture lit rest

/-- Leftmost match of `youtube\.com\/(user|c)\/([a-zA-Z0-9_-]+)`, capturing
group 2.  At each position the `user` alternative is tried before `c`; the
two literals can never both match at one position (they differ at the
character after `youtube.com/`). -/
def scanUserCapture : List Char → Option (List Char)
  | [] => none
  | s@(_ :: rest) =>
    if litMatches ("youtube.com/user/".toList) s then
      let run := (s.drop "youtube.com/user/".length).takeWhile isWordChar
      if run.isEmpty then scanUserCapture rest else some run
    else if litMatches ("youtube.com/c/".toList) s then
      let run := (s.drop "youtube.com/c/".length).takeWhile isWordChar
      if run.isEmpty then scanUserCapture rest else some run
    else scanUserCapture rest

/-- `url.match(/youtube\.com\/channel\/([a-zA-Z0-9_-]+)/)`, group 1. -/
def channelCapture (url : String) : Option String :=
  (scanCapture ("youtube.com/channel/".toList) url.toList).map String.mk

/-- `url.match(/youtube\.com\/(user|c)\/([a-zA-Z0-9_-]+)/)`, group 2. -/
def usernameCapture (url : String) : Option String :=
  (scanUserCapture url.toList).map String.mk

/-- `url.match(/youtube\.com\/watch\?v=([a-zA-Z0-9_-]+)/)`, group 1. -/
def videoCapture (url : String) : Option String :=
  (scanCapture ("youtube.com/watch?v=".toList) url.toList).map String.mk

/-- Modelled from the spec: "URL contains a path segment literal
`channel/<id>` where `<id>` is composed of letters, digits, underscore, or
hyphen" — the spec's direct-channel pattern, which does not require the
`youtube.com/` prefix that the source regex requires. -/
def specChannelCapture (url : String) : Option String :=
  (scanCapture ("channel/".toList) url.toList).map String.mk

/-- Modelled from the spec: "URL contains `user/<name>` or `c/<name>` with
the same character class" — the spec's username/custom pattern, again
without the `youtube.com/` prefix required by the source regex. -/
def specUserScan : List Char → Option (List Char)
  | [] => none
  | s@(_ :: rest) =>
    if litMatches ("user/".toList) s then
      let run := (s.drop "user/".length).takeWhile isWordChar
      if run.isEmpty then specUserScan rest else some run
    else if litMatches ("c/".toList) s then
      let run := (s.drop "c/".length).takeWhile isWordChar
      if run.isEmpty then specUserScan rest else some run
    else specUserScan rest

/-- Modelled from the spec: the username/custom form over a URL string. -/
def specUserCapture (url : String) : Option String :=
  (specUserScan url.toList).map String.mk

/-- Modelled from the spec: "URL contains `watch?v=<videoId>`" — the
spec's video pattern, without the `youtube.com/` prefix the source
regex requires. -/
def specVideoCapture (url : String) : Option String :=
  (scanCapture ("watch?v=".toList) url.toList).map String.mk

/-- One row of the `channel_details` table. -/
structure ChannelRecord where
  yt_channel_id : String
  createdBy : String
deriving DecidableEq, Repr

/-- The persisted `channel_details` table, in insertion order. -/
abbrev Db := List ChannelRecord

/-- One item of the YouTube `channels?forUsername=` response. -/
structure ChannelItem where
  id : String
deriving DecidableEq, Repr

/-- The `snippet` object of a YouTube `videos?id=` response item. -/
structure VideoSnippet where
  channelId : String
deriving DecidableEq, Repr

/-- One item of the YouTube `videos?id=` response. -/
structure VideoItem where
  snippet : VideoSnippet
deriving DecidableEq, Repr

/-- The payload returned by the identity provider for a verified token. -/
structure UserPayload where
  name : String
deriving DecidableEq, Repr

/-- A JavaScript exception reaching a `try/catch` boundary: a failed
`fetch`/verify call, or a `TypeError` from dereferencing `undefined`
(e.g. `data.items.length` when the body has no `items` collection, or
`url.match` when the body has no `url` field). -/
inductive JsError where
  | network : JsError
  | typeErr : JsError
deriving DecidableEq, Repr

/-- External collaborators of one request.  For the two metadata lookups,
`Except.error ()` is a failed fetch, `Except.ok none` is a response body
without an `items` collection (so `data.items.length` throws), and
`Except.ok (some items)` is a well-formed response. -/
structure Env where
  verifyIdToken : String → Option UserPayload
  channels : String → Except Unit (Option (List ChannelItem))
  videos : String → Except Unit (Option (List VideoItem))

/-- One outbound metadata-API call made during resolution. -/
inductive ApiCall where
  | channels (username : String) : ApiCall
  | videos (videoId : String) : ApiCall
deriving DecidableEq, Repr

/-- One SQL operation issued by a handler. -/
inductive DbOp where
  | selectById (cid : String) : DbOp
  | insertRec (cid createdBy : String) : DbOp
  | selectByCreator (name : String) : DbOp
deriving DecidableEq, Repr

/-- `getChannelIdFromAPI(url, token)`: match the three regexes in order;
a direct channel match returns its capture with no external call; a
username match queries `channels?forUsername=`, a video match queries
`videos?id=`, each taking the first item's (snippet) channel id when the
item collection is non-empty and `null` when it is empty; no match at all
returns `null`.  The second component is the list of metadata-API calls
performed.  (The `token` argument only decorates fetch headers in the
source and does not affect the result.) -/
def getChannelIdFromAPI (env : Env) (url : String) :
    Except JsError (Option String) × List ApiCall :=
  match channelCapture url with
  | some cid => (Except.ok (some cid), [])
  | none =>
    match usernameCapture url with
    | some name =>
      (match env.channels name with
       | Except.error _ => Except.error JsError.network
       | Except.ok none => Except.error JsError.typeErr
       | Except.ok (some []) => Except.ok none
       | Except.ok (some (it :: _)) => Except.ok (some it.id),
       [ApiCall.channels name])
    | none =>
      match videoCapture url with
      | some vid =>
        (match env.videos vid with
         | Except.error _ => Except.error JsError.network
         | Except.ok none => Except.error JsError.typeErr
         | Except.ok (some []) => Except.ok none
         | Except.ok (some (it :: _)) => Except.ok (some it.snippet.channelId),
         [ApiCall.videos vid])
      | none => (Except.ok none, [])

/-- The resolver as called by the route handler, on the JavaScript value
of `req.body.url`: when the field is absent (`undefined`), `url.match`
throws a `TypeError` before any pattern is tried. -/
def getChannelIdFromAPIJs (env : Env) (url : Option String) :
    Except JsError (Option String) × List ApiCall :=
  match url with
  | none => (Except.error JsError.typeErr, [])
  | some u => getChannelIdFromAPI env u

/-- Number of persisted rows whose `yt_channel_id` equals `cid` — the
result size of `SELECT * FROM channel_details WHERE yt_channel_id = $1`. -/
def countId (db : Db) (cid : String) : Nat :=
  (db.filter (fun r => r.yt_channel_id == cid)).length

/-- Outcome of the `POST /checkChannel` route handler body (after the
authentication middleware): HTTP status and message, the table state
afterwards, and the traces of SQL operations and metadata-API calls. -/
structure HandlerOut where
  status : Nat
  message : String
  db : Db
  dbOps : List DbOp
  apiCalls : List ApiCall
deriving Repr

/-- The `POST /checkChannel` handler body: resolve the URL (a thrown
resolution error is caught by the handler's `try/catch` and answered 500);
the guard `if (!channelId)` answers 400 for every falsy channel id — both
`null` (no pattern matched, or an empty item collection) and the empty
string; otherwise `SELECT` by channel id, answer 200 `Duplicate` when a
row exists, else `INSERT` the record tagged with the caller's name and
answer 201. -/
def checkChannel (env : Env) (db : Db) (user : String) (url : Option String) :
    HandlerOut :=
  let r := getChannelIdFromAPIJs env url
  match r.1 with
  | Except.error _ => ⟨500, "Internal server error.", db, [], r.2⟩
  | Except.ok none =>
      ⟨400, "Invalid YouTube URL or Channel ID could not be retrieved.",
        db, [], r.2⟩
  | Except.ok (some cid) =>
      if cid = "" then
        ⟨400, "Invalid YouTube URL or Channel ID could not be retrieved.",
          db, [], r.2⟩
      else
        let rows := db.filter (fun rec => rec.yt_channel_id == cid)
        if rows.length > 0 then
          ⟨200, "Duplicate channel ID found.", db, [DbOp.selectById cid], r.2⟩
        else
          ⟨201, "Channel ID inserted successfully.",
            db ++ [⟨cid, user⟩],
            [DbOp.selectById cid, DbOp.insertRec cid user], r.2⟩

/-- Result of running the authentication middleware: call the handler with
the verified payload, answer an HTTP response without running it, or throw
out of the middleware (an unhandled rejection — no response at all). -/
inductive MwResult where
  | proceed (u : UserPayload) : MwResult
  | reject (status : Nat) (message : String) : MwResult
  | thrown : MwResult
deriving DecidableEq, Repr

/-- JavaScript `s.split(' ')`: split at every single space character,
keeping empty pieces. -/
def splitSp : List Char → List (List Char)
  | [] => [[]]
  | c :: rest =>
    match splitSp rest with
    | [] => [[]]
    | w :: ws => if c == ' ' then [] :: w :: ws else (c :: w) :: ws

/-- JavaScript `header.split(' ')[1]`: `none` models `undefined`. -/
def secondPiece (h : String) : Option String :=
  ((splitSp h.toList).map String.mk).get? 1

/-- The guarded `verifyToken` middleware (variants part_000/part_001):
a missing `Authorization` header — or one without a second
space-separated part, which leaves `token` falsy — answers 401
"Authorization header is missing"; otherwise the token is verified and a
failed verification answers 401 "Unauthorized". -/
def verifyToken (env : Env) (authHeader : Option String) : MwResult :=
  let token : Option String :=
    match authHeader with
    | none => none
    | some h => secondPiece h
  match token with
  | none => MwResult.reject 401 "Authorization header is missing"
  | some t =>
    if t = "" then MwResult.reject 401 "Authorization header is missing"
    else
      match env.verifyIdToken t with
      | some payload => MwResult.proceed payload
      | none => MwResult.reject 401 "Unauthorized"

/-- The unguarded `verifyToken` middleware (variant part_002): it reads
`req.headers.authorization.split(' ')[1]` with no null check, so a missing
header throws a `TypeError` inside the async middleware — an unhandled
rejection, no response is ever sent.  With a header present, a failed
verification (including verification of an `undefined` token) answers 401
"Unauthorized". -/
def verifyTokenV2 (env : Env) (authHeader : Option String) : MwResult :=
  match authHeader with
  | none => MwResult.thrown
  | some h =>
    match secondPiece h with
    | none => MwResult.reject 401 "Unauthorized"
    | some t =>
      match env.verifyIdToken t with
      | some payload => MwResult.proceed payload
      | none => MwResult.reject 401 "Unauthorized"

/-- An HTTP response of the channel-submission endpoint. -/
structure Response where
  status : Nat
  message : String
deriving DecidableEq, Repr

/-- Outcome of a full `POST /checkChannel` request: the response (none
when the middleware threw and no response was sent), the table state, and
the operation traces. -/
structure EndpointOut where
  response : Option Response
  db : Db
  dbOps : List DbOp
  apiCalls : List ApiCall
deriving Repr

/-- `POST /checkChannel` with a chosen middleware: the middleware runs
first; the handler body runs only when it calls `next()`. -/
def postCheckChannelWith (mw : Env → Option String → MwResult)
    (env : Env) (db : Db) (authHeader : Option String)
    (body : Option String) : EndpointOut :=
  match mw env authHeader with
  | MwResult.thrown => ⟨none, db, [], []⟩
  | MwResult.reject s m => ⟨some ⟨s, m⟩, db, [], []⟩
  | MwResult.proceed u =>
    let o := checkChannel env db u.name body
    ⟨some ⟨o.status, o.message⟩, o.db, o.dbOps, o.apiCalls⟩

/-- `POST /checkChannel` behind the guarded middleware. -/
def postCheckChannel : Env → Db → Option String → Option String → EndpointOut :=
  postCheckChannelWith verifyToken

/-- `POST /checkChannel` behind the unguarded (part_002) middleware. -/
def postCheckChannelV2 : Env → Db → Option String → Option String → EndpointOut :=
  postCheckChannelWith verifyTokenV2

/-- Outcome of a `GET /influencerHistory` request: response status (none
when the middleware threw), the rows of the 200 body, and the SQL trace. -/
structure HistoryOut where
  status : Option Nat
  rows : List ChannelRecord
  dbOps : List DbOp
deriving Repr

/-- `GET /influencerHistory` with a chosen middleware: on success answer
200 with `SELECT * FROM channel_details WHERE createdBy = $1` for the
verified caller's name. -/
def influencerHistoryWith (mw : Env → Option String → MwResult)
    (env : Env) (db : Db) (authHeader : Option String) : HistoryOut :=
  match mw env authHeader with
  | MwResult.thrown => ⟨none, [], []⟩
  | MwResult.reject s _ => ⟨some s, [], []⟩
  | MwResult.proceed u =>
    ⟨some 200, db.filter (fun rec => rec.createdBy == u.name),
      [DbOp.selectByCreator u.name]⟩

/-- `GET /influencerHistory` behind the guarded middleware. -/
def influencerHistory : Env → Db → Option String → HistoryOut :=
  influencerHistoryWith verifyToken

/-- Table states reachable from the empty table through any sequence of
`POST /checkChannel` handler executions (sequential, non-interleaved). -/
inductive Reachable : Db → Prop where
  | nil : Reachable []
  | step (env : Env) (u : String) (url : Option String) (db : Db) :
      Reachable db → Reachable (checkChannel env db u url).db

/-! ### Concrete environments used by witnesses and counterexamples -/

/-- Identity provider verifies every token as "Alice"; both metadata
lookups answer an empty item collection. -/
def envA : Env :=
  ⟨fun _ => some ⟨"Alice"⟩,
   fun _ => Except.ok (some []),
   fun _ => Except.ok (some [])⟩

/-- Metadata API knows username "bob" (channel "UCbob") and video "abc"
(channel "UCvid"); everything else answers an empty collection. -/
def envB : Env :=
  ⟨fun _ => some ⟨"Alice"⟩,
   fun n => if n = "bob" then Except.ok (some [⟨"UCbob"⟩])
            else Except.ok (some []),
   fun v => if v = "abc" then Except.ok (some [⟨⟨"UCvid"⟩⟩])
            else Except.ok (some [])⟩

/-- The channels lookup fails at the network layer; the videos lookup
returns a body without an `items` collection. -/
def envC : Env :=
  ⟨fun _ => some ⟨"Alice"⟩,
   fun _ => Except.error (),
   fun _ => Except.ok none⟩

/-! ### Helper lemmas -/

theorem countId_append_single (db : Db) (cid u c : String) :
    countId (db ++ [⟨cid, u⟩]) c =
      countId db c + (if cid = c then 1 else 0) := by
  by_cases h : cid = c <;>
    simp [countId, List.filter_append, h]

theorem checkChannel_db_cases (env : Env) (db : Db) (user : String)
    (url : Option String) :
    (checkChannel env db user url).db = db ∨
    ∃ cid, countId db cid = 0 ∧
      (checkChannel env db user url).db = db ++ [⟨cid, user⟩] := by
  rcases hres : (getChannelIdFromAPIJs env url).1 with e | v
  · left; simp [checkChannel, hres]
  · rcases v with _ | cid
    · left; simp [checkChannel, hres]
    · by_cases hcid : cid = ""
      · left; simp [checkChannel, hres, hcid]
      · by_cases h :
            (db.filter (fun rec => rec.yt_channel_id == cid)).length > 0
        · left; simp [checkChannel, hres, hcid, h]
        · right
          refine ⟨cid, ?_, ?_⟩
          · simpa [countId] using Nat.eq_zero_of_not_pos h
          · simp [checkChannel, hres, hcid, h]

theorem reachable_at_most_one (db : Db) (h : Reachable db) (c : String) :
    countId db c ≤ 1 := by
  induction h with
  | nil => simp [countId]
  | step env u url db hdb ih =>
    rcases checkChannel_db_cases env db u url with heq | ⟨cid, h0, heq⟩
    · rw [heq]; exact ih
    · rw [heq, countId_append_single]
      by_cases hc : cid = c
      · subst hc; simp [h0]
      · simp [hc]; exact ih

/-! ### Claims -/

/-- C1: starting from any table state not yet containing a resolved
(non-empty, hence truthy) channel identifier, two submissions that resolve
to that identifier — possibly different URLs, environments, and callers —
answer 201 "inserted" the first time and 200 "duplicate" the second,
leaving exactly one persisted record for the identifier; and — for
sequential, non-interleaved requests — every table state reachable from
the empty table by the check-then-insert sequence holds at most one
record per channel id. -/
theorem checkChannel_dedup_idempotent
    (env1 env2 : Env) (db : Db) (u1 u2 : String)
    (url1 url2 : Option String) (cid : String)
    (hres1 : (getChannelIdFromAPIJs env1 url1).1 = Except.ok (some cid))
    (hres2 : (getChannelIdFromAPIJs env2 url2).1 = Except.ok (some cid))
    (hcid : cid ≠ "")
    (hfresh : countId db cid = 0) :
    (checkChannel env1 db u1 url1).status = 201 ∧
    (checkChannel env2 (checkChannel env1 db u1 url1).db u2 url2).status =
      200 ∧
    countId (checkChannel env2 (checkChannel env1 db u1 url1).db u2
      url2).db cid = 1 ∧
    ∀ db2, Reachable db2 → ∀ c, countId db2 c ≤ 1 := by
  have hlen :
      (db.filter (fun rec => rec.yt_channel_id == cid)).length = 0 := by
    simpa [countId] using hfresh
  have hdb1 : (checkChannel env1 db u1 url1).db =
      db ++ [⟨cid, u1⟩] := by
    simp [checkChannel, hres1, hcid, hlen]
  have hst1 : (checkChannel env1 db u1 url1).status = 201 := by
    simp [checkChannel, hres1, hcid, hlen]
  have hlen2 : ((db ++ [⟨cid, u1⟩] : Db).filter
      (fun rec => rec.yt_channel_id == cid)).length = 1 := by
    simp [List.filter_append, hlen]
  have hst2 :
      (checkChannel env2 (db ++ [⟨cid, u1⟩]) u2 url2).status = 200 := by
    simp [checkChannel, hres2, hcid, hlen2]
  have hdb2 : (checkChannel env2 (db ++ [⟨cid, u1⟩]) u2 url2).db =
      db ++ [⟨cid, u1⟩] := by
    simp [checkChannel, hres2, hcid, hlen2]
  refine ⟨hst1, ?_, ?_, fun db2 h2 c => reachable_at_most_one db2 h2 c⟩
  · rw [hdb1]; exact hst2
  · rw [hdb1, hdb2, countId_append_single, hfresh]; simp

/-- Witness for C1: Alice submits `www.youtube.com/channel/UC123` into the
empty table (201), then Bob submits the different URL
`m.youtube.com/channel/UC123` resolving to the same identifier (200): one
`UC123` record remains. -/
theorem checkChannel_dedup_idempotent_witness :
    (checkChannel envA [] "Alice"
      (some "https://www.youtube.com/channel/UC123")).status = 201 ∧
    (checkChannel envA
      (checkChannel envA [] "Alice"
        (some "https://www.youtube.com/channel/UC123")).db "Bob"
      (some "https://m.youtube.com/channel/UC123")).status = 200 ∧
    countId (checkChannel envA
      (checkChannel envA [] "Alice"
        (some "https://www.youtube.com/channel/UC123")).db "Bob"
      (some "https://m.youtube.com/channel/UC123")).db "UC123" = 1 ∧
    ∀ db2, Reachable db2 → ∀ c, countId db2 c ≤ 1 :=
  checkChannel_dedup_idempotent envA envA [] "Alice" "Bob"
    (some "https://www.youtube.com/channel/UC123")
    (some "https://m.youtube.com/channel/UC123") "UC123"
    (by rfl) (by rfl) (by decide) (by rfl)

/-- C2 counterexample: the claim's pattern is "URL contains a path segment
literal `channel/<id>`", with no `youtube.com/` requirement.  The URL
`https://example.com/channel/abc123` contains the segment
`channel/abc123`, yet the resolver returns unresolved (`null`), not
`abc123` — the source regex additionally requires the literal
`youtube.com/` immediately before `channel/`. -/
theorem spec_channel_pattern_cex :
    specChannelCapture "https://example.com/channel/abc123" =
      some "abc123" ∧
    getChannelIdFromAPI envA "https://example.com/channel/abc123" =
      (Except.ok none, []) ∧
    (getChannelIdFromAPI envA "https://example.com/channel/abc123").1 ≠
      Except.ok (some "abc123") := by
  refine ⟨rfl, rfl, ?_⟩
  intro h
  rw [show (getChannelIdFromAPI envA
      "https://example.com/channel/abc123").1 =
      Except.ok (none : Option String) from rfl] at h
  simp at h

/-- C2 (amended): for every URL on which the resolver's direct-channel
regex `youtube\.com\/channel\/([a-zA-Z0-9_-]+)` matches, capturing `<id>`
(a non-empty run of letters, digits, underscore, or hyphen), the resolver
returns `<id>` verbatim and performs zero metadata-API calls. -/
theorem channel_pattern_resolves_verbatim (env : Env) (url id : String)
    (h : channelCapture url = some id) :
    getChannelIdFromAPI env url = (Except.ok (some id), []) := by
  simp [getChannelIdFromAPI, h]

/-- Witness for the amended C2 at `channel/UC123`. -/
theorem channel_pattern_resolves_verbatim_witness :
    getChannelIdFromAPI envA "https://www.youtube.com/channel/UC123" =
      (Except.ok (some "UC123"), []) :=
  channel_pattern_resolves_verbatim envA
    "https://www.youtube.com/channel/UC123" "UC123" (by rfl)

/-- C3: the resolver tries its three regexes in order with first match
winning: when the direct-channel regex matches, no metadata-API call at
all is made (neither later pattern is used for resolution); when the
username regex matches, no videos-API call is ever made. -/
theorem resolver_precedence_first_match (env : Env) (url : String) :
    ((channelCapture url).isSome → (getChannelIdFromAPI env url).2 = []) ∧
    ((usernameCapture url).isSome →
      ∀ v, ApiCall.videos v ∉ (getChannelIdFromAPI env url).2) := by
  constructor
  · intro h
    rcases hc : channelCapture url with _ | cid
    · rw [hc] at h; simp at h
    · simp [getChannelIdFromAPI, hc]
  · intro h v
    rcases hc : channelCapture url with _ | cid
    · rcases hu : usernameCapture url with _ | name
      · rw [hu] at h; simp at h
      · simp [getChannelIdFromAPI, hc, hu]
    · simp [getChannelIdFromAPI, hc]

/-- Witness for C3 at a URL matched by both the direct-channel and the
username regexes: zero calls are made, in particular no videos call. -/
theorem resolver_precedence_first_match_witness :
    (getChannelIdFromAPI envA
      "https://www.youtube.com/user/bob/youtube.com/channel/UC1").2 = [] ∧
    ∀ v, ApiCall.videos v ∉ (getChannelIdFromAPI envA
      "https://www.youtube.com/user/bob/youtube.com/channel/UC1").2 :=
  ⟨(resolver_precedence_first_match envA
      "https://www.youtube.com/user/bob/youtube.com/channel/UC1").1 (by rfl),
   (resolver_precedence_first_match envA
      "https://www.youtube.com/user/bob/youtube.com/channel/UC1").2 (by rfl)⟩

/-- C4 counterexample: the claim's pattern is `user/<name>` or `c/<name>`
with no `youtube.com/` requirement.  `https://example.com/user/bob`
contains `user/bob`, and the metadata API would answer username "bob" with
a non-empty collection whose first identifier is "UCbob"; yet the resolver
performs zero API calls and returns unresolved instead of "UCbob" — the
source regex requires `youtube.com/` immediately before `user/`. -/
theorem spec_username_pattern_cex :
    specUserCapture "https://example.com/user/bob" = some "bob" ∧
    envB.channels "bob" = Except.ok (some [⟨"UCbob"⟩]) ∧
    getChannelIdFromAPI envB "https://example.com/user/bob" =
      (Except.ok none, []) ∧
    (getChannelIdFromAPI envB "https://example.com/user/bob").1 ≠
      Except.ok (some "UCbob") := by
  refine ⟨rfl, rfl, rfl, ?_⟩
  intro h
  rw [show (getChannelIdFromAPI envB "https://example.com/user/bob").1 =
      Except.ok (none : Option String) from rfl] at h
  simp at h

/-- C4 (amended): for every URL on which the direct-channel regex fails
and the resolver's username regex `youtube\.com\/(user|c)\/(...)` matches,
capturing `<name>`, the resolver queries the metadata API exactly once,
with `forUsername=<name>`; an empty item collection yields unresolved, a
non-empty one yields the first item's identifier field. -/
theorem username_pattern_queries_api (env : Env) (url name : String)
    (hc : channelCapture url = none)
    (hu : usernameCapture url = some name) :
    (getChannelIdFromAPI env url).2 = [ApiCall.channels name] ∧
    (env.channels name = Except.ok (some []) →
      (getChannelIdFromAPI env url).1 = Except.ok none) ∧
    (∀ it ts, env.channels name = Except.ok (some (it :: ts)) →
      (getChannelIdFromAPI env url).1 = Except.ok (some it.id)) := by
  refine ⟨?_, ?_, ?_⟩
  · simp [getChannelIdFromAPI, hc, hu]
  · intro h; simp [getChannelIdFromAPI, hc, hu, h]
  · intro it ts h; simp [getChannelIdFromAPI, hc, hu, h]

/-- Witness for the amended C4: username "bob" resolves through the API to
"UCbob", and an unknown username resolves to unresolved. -/
theorem username_pattern_queries_api_witness :
    ((getChannelIdFromAPI envB "https://www.youtube.com/user/bob").2 =
      [ApiCall.channels "bob"] ∧
    (envB.channels "bob" = Except.ok (some []) →
      (getChannelIdFromAPI envB "https://www.youtube.com/user/bob").1 =
        Except.ok none) ∧
    (∀ it ts, envB.channels "bob" = Except.ok (some (it :: ts)) →
      (getChannelIdFromAPI envB "https://www.youtube.com/user/bob").1 =
        Except.ok (some it.id))) ∧
    ((getChannelIdFromAPI envB "https://www.youtube.com/c/zed").2 =
      [ApiCall.channels "zed"] ∧
    (envB.channels "zed" = Except.ok (some []) →
      (getChannelIdFromAPI envB "https://www.youtube.com/c/zed").1 =
        Except.ok none) ∧
    (∀ it ts, envB.channels "zed" = Except.ok (some (it :: ts)) →
      (getChannelIdFromAPI envB "https://www.youtube.com/c/zed").1 =
        Except.ok (some it.id))) :=
  ⟨username_pattern_queries_api envB "https://www.youtube.com/user/bob"
    "bob" (by rfl) (by rfl),
   username_pattern_queries_api envB "https://www.youtube.com/c/zed"
    "zed" (by rfl) (by rfl)⟩

/-- C5 counterexample: the claim's pattern is `watch?v=<videoId>` with no
`youtube.com/` requirement.  `https://example.com/watch?v=abc` contains
`watch?v=abc`, and the metadata API would answer video "abc" with one item
whose snippet channel identifier is "UCvid"; yet the resolver performs
zero API calls and returns unresolved instead of "UCvid" — the source
regex requires `youtube.com/` immediately before `watch?v=`. -/
theorem spec_video_pattern_cex :
    specVideoCapture "https://example.com/watch?v=abc" = some "abc" ∧
    envB.videos "abc" = Except.ok (some [⟨⟨"UCvid"⟩⟩]) ∧
    getChannelIdFromAPI envB "https://example.com/watch?v=abc" =
      (Except.ok none, []) ∧
    (getChannelIdFromAPI envB "https://example.com/watch?v=abc").1 ≠
      Except.ok (some "UCvid") := by
  refine ⟨rfl, rfl, rfl, ?_⟩
  intro h
  rw [show (getChannelIdFromAPI envB "https://example.com/watch?v=abc").1 =
      Except.ok (none : Option String) from rfl] at h
  simp at h

/-- C5 (amended): for every URL on which the direct-channel and username
regexes fail and the resolver's video regex `youtube\.com\/watch\?v=(...)`
matches, capturing `<videoId>`, the resolver queries the metadata API
exactly once, with `id=<videoId>` requesting snippet data; a non-empty
item collection yields the first item's snippet channel-identifier field,
an empty one yields unresolved. -/
theorem video_pattern_queries_api (env : Env) (url vid : String)
    (hc : channelCapture url = none)
    (hu : usernameCapture url = none)
    (hv : videoCapture url = some vid) :
    (getChannelIdFromAPI env url).2 = [ApiCall.videos vid] ∧
    (∀ it ts, env.videos vid = Except.ok (some (it :: ts)) →
      (getChannelIdFromAPI env url).1 =
        Except.ok (some it.snippet.channelId)) ∧
    (env.videos vid = Except.ok (some []) →
      (getChannelIdFromAPI env url).1 = Except.ok none) := by
  refine ⟨?_, ?_, ?_⟩
  · simp [getChannelIdFromAPI, hc, hu, hv]
  · intro it ts h; simp [getChannelIdFromAPI, hc, hu, hv, h]
  · intro h; simp [getChannelIdFromAPI, hc, hu, hv, h]

/-- Witness for the amended C5 at `watch?v=abc`, which the API maps to one
item with snippet channel "UCvid". -/
theorem video_pattern_queries_api_witness :
    (getChannelIdFromAPI envB "https://www.youtube.com/watch?v=abc").2 =
      [ApiCall.videos "abc"] ∧
    (∀ it ts, envB.videos "abc" = Except.ok (some (it :: ts)) →
      (getChannelIdFromAPI envB "https://www.youtube.com/watch?v=abc").1 =
        Except.ok (some it.snippet.channelId)) ∧
    (envB.videos "abc" = Except.ok (some []) →
      (getChannelIdFromAPI envB "https://www.youtube.com/watch?v=abc").1 =
        Except.ok none) :=
  video_pattern_queries_api envB "https://www.youtube.com/watch?v=abc"
    "abc" (by rfl) (by rfl) (by rfl)

/-- C6: an authenticated `POST /checkChannel` whose URL string matches
none of the three resolver regexes (so resolution returns `null`) is
answered 400, and the handler issues no SQL operation — neither the
existence `SELECT` nor the `INSERT` — nor any metadata-API call; the table
is unchanged.  Stated for any middleware that authenticated the request,
so it covers both middleware variants. -/
theorem unresolved_url_responds_400
    (mw : Env → Option String → MwResult) (env : Env) (db : Db)
    (h : Option String) (s : String) (u : UserPayload)
    (hauth : mw env h = MwResult.proceed u)
    (h1 : channelCapture s = none) (h2 : usernameCapture s = none)
    (h3 : videoCapture s = none) :
    postCheckChannelWith mw env db h (some s) =
      ⟨some ⟨400, "Invalid YouTube URL or Channel ID could not be retrieved."⟩,
        db, [], []⟩ := by
  simp [postCheckChannelWith, hauth, checkChannel, getChannelIdFromAPIJs,
    getChannelIdFromAPI, h1, h2, h3]

/-- Witness for C6: an authenticated submission of a non-YouTube URL. -/
theorem unresolved_url_responds_400_witness :
    postCheckChannelWith verifyToken envA [] (some "Bearer tok")
      (some "https://example.com/not-youtube") =
      ⟨some ⟨400, "Invalid YouTube URL or Channel ID could not be retrieved."⟩,
        [], [], []⟩ :=
  unresolved_url_responds_400 verifyToken envA [] (some "Bearer tok")
    "https://example.com/not-youtube" ⟨"Alice"⟩
    (by rfl) (by rfl) (by rfl) (by rfl)

/-- C7: when the metadata lookup fails — the fetch itself fails, or the
response body lacks an `items` collection so that `data.items.length`
throws — the thrown error propagates out of the resolver (distinct from a
`null` "unresolved" result) and the route's `try/catch` answers 500
"Internal server error.", never 400; no SQL operation is issued and the
table is unchanged. -/
theorem upstream_failure_responds_500
    (mw : Env → Option String → MwResult) (env : Env) (db : Db)
    (h : Option String) (s : String) (u : UserPayload) (e : JsError)
    (hauth : mw env h = MwResult.proceed u)
    (herr : (getChannelIdFromAPI env s).1 = Except.error e) :
    (postCheckChannelWith mw env db h (some s)).response =
      some ⟨500, "Internal server error."⟩ ∧
    (postCheckChannelWith mw env db h (some s)).db = db ∧
    (postCheckChannelWith mw env db h (some s)).dbOps = [] ∧
    ∀ m, (postCheckChannelWith mw env db h (some s)).response ≠
      some ⟨400, m⟩ := by
  have hout : postCheckChannelWith mw env db h (some s) =
      ⟨some ⟨500, "Internal server error."⟩, db, [],
        (getChannelIdFromAPI env s).2⟩ := by
    simp [postCheckChannelWith, hauth, checkChannel, getChannelIdFromAPIJs,
      herr]
  refine ⟨by rw [hout], by rw [hout], by rw [hout], ?_⟩
  intro m hm
  rw [hout] at hm
  simp at hm

/-- Witness for C7: a network failure on the channels lookup (envC) ends
in 500 with no storage operation. -/
theorem upstream_failure_responds_500_witness :
    (postCheckChannelWith verifyToken envC [] (some "Bearer tok")
      (some "https://www.youtube.com/user/bob")).response =
      some ⟨500, "Internal server error."⟩ ∧
    (postCheckChannelWith verifyToken envC [] (some "Bearer tok")
      (some "https://www.youtube.com/user/bob")).db = [] ∧
    (postCheckChannelWith verifyToken envC [] (some "Bearer tok")
      (some "https://www.youtube.com/user/bob")).dbOps = [] ∧
    ∀ m, (postCheckChannelWith verifyToken envC [] (some "Bearer tok")
      (some "https://www.youtube.com/user/bob")).response ≠
      some ⟨400, m⟩ :=
  upstream_failure_responds_500 verifyToken envC [] (some "Bearer tok")
    "https://www.youtube.com/user/bob" ⟨"Alice"⟩ JsError.network
    (by rfl) (by rfl)

/-- C8 counterexample: against the unguarded middleware variant
(part_002), a `POST /checkChannel` without an `Authorization` header does
not get a 401 response — `req.headers.authorization.split` throws a
`TypeError` inside the async middleware, the rejection is unhandled, and
no response is ever sent. -/
theorem missing_header_unguarded_cex :
    (postCheckChannelV2 envA [] none
      (some "https://www.youtube.com/channel/UC123")).response = none ∧
    (postCheckChannelV2 envA [] none
      (some "https://www.youtube.com/channel/UC123")).response.map
      Response.status ≠ some 401 := by
  refine ⟨rfl, ?_⟩
  intro h
  rw [show (postCheckChannelV2 envA [] none
      (some "https://www.youtube.com/channel/UC123")).response =
      (none : Option Response) from rfl] at h
  simp at h

/-- C8 (amended): on a request with no `Authorization` header the handler
body never runs (no SQL operation, no API call, table unchanged) under
either middleware variant; the guarded variant (part_000/part_001)
responds 401 as the claim states, while the unguarded variant (part_002)
throws before responding, so no 401 — or any — response is sent. -/
theorem missing_header_behaviour (env : Env) (db : Db)
    (body : Option String) :
    postCheckChannel env db none body =
      ⟨some ⟨401, "Authorization header is missing"⟩, db, [], []⟩ ∧
    influencerHistoryWith verifyToken env db none = ⟨some 401, [], []⟩ ∧
    postCheckChannelV2 env db none body = ⟨none, db, [], []⟩ ∧
    influencerHistoryWith verifyTokenV2 env db none = ⟨none, [], []⟩ :=
  ⟨rfl, rfl, rfl, rfl⟩

/-- C9: an authenticated `GET /influencerHistory` answers 200 with exactly
the persisted records whose `createdBy` equals the verified caller's
display name — each such record is included and no record with another
`createdBy` appears.  Stated for any middleware that authenticated the
request, so it covers both middleware variants. -/
theorem influencerHistory_exact_filter
    (mw : Env → Option String → MwResult) (env : Env) (db : Db)
    (h : Option String) (u : UserPayload)
    (hauth : mw env h = MwResult.proceed u) :
    (influencerHistoryWith mw env db h).status = some 200 ∧
    ∀ r : ChannelRecord,
      r ∈ (influencerHistoryWith mw env db h).rows ↔
        (r ∈ db ∧ r.createdBy = u.name) := by
  constructor
  · simp [influencerHistoryWith, hauth]
  · intro r
    simp [influencerHistoryWith, hauth, List.mem_filter]

/-- Witness for C9: Alice's history over a table holding one record by
Alice and one by Carol. -/
theorem influencerHistory_exact_filter_witness :
    (influencerHistoryWith verifyToken envA
      [⟨"UC123", "Alice"⟩, ⟨"UC9", "Carol"⟩] (some "Bearer tok")).status =
      some 200 ∧
    ∀ r : ChannelRecord,
      r ∈ (influencerHistoryWith verifyToken envA
        [⟨"UC123", "Alice"⟩, ⟨"UC9", "Carol"⟩] (some "Bearer tok")).rows ↔
        (r ∈ ([⟨"UC123", "Alice"⟩, ⟨"UC9", "Carol"⟩] : Db) ∧
          r.createdBy = "Alice") :=
  influencerHistory_exact_filter verifyToken envA
    [⟨"UC123", "Alice"⟩, ⟨"UC9", "Carol"⟩] (some "Bearer tok")
    ⟨"Alice"⟩ (by rfl)

/-- C10: an authenticated `POST /checkChannel` whose JSON body has no
`url` field is answered 500 "Internal server error." and not 400: the
resolver evaluates `url.match` on `undefined`, the `TypeError` is caught
by the route's `try/catch`, and no SQL operation is issued — the table is
unchanged. -/
theorem missing_url_field_responds_500
    (mw : Env → Option String → MwResult) (env : Env) (db : Db)
    (h : Option String) (u : UserPayload)
    (hauth : mw env h = MwResult.proceed u) :
    postCheckChannelWith mw env db h none =
      ⟨some ⟨500, "Internal server error."⟩, db, [], []⟩ ∧
    ∀ m, (postCheckChannelWith mw env db h none).response ≠
      some ⟨400, m⟩ := by
  have hout : postCheckChannelWith mw env db h none =
      ⟨some ⟨500, "Internal server error."⟩, db, [], []⟩ := by
    simp [postCheckChannelWith, hauth, checkChannel, getChannelIdFromAPIJs]
  refine ⟨hout, ?_⟩
  intro m hm
  rw [hout] at hm
  simp at hm

/-- Witness for C10: an authenticated request with a body lacking `url`. -/
theorem missing_url_field_responds_500_witness :
    postCheckChannelWith verifyToken envA [] (some "Bearer tok") none =
      ⟨some ⟨500, "Internal server error."⟩, [], [], []⟩ ∧
    ∀ m, (postCheckChannelWith verifyToken envA [] (some "Bearer tok")
      none).response ≠ some ⟨400, m⟩ :=
  missing_url_field_responds_500 verifyToken envA [] (some "Bearer tok")
    ⟨"Alice"⟩ (by rfl)
